import Mathlib

/-
Verification of `reference-files/autonomous-coding/progress.py`.

The module under study has four functions:

* `get_regression_status(project_dir)` — reads
  `project_dir.parent/tests/regression/results/summary.txt` and classifies its
  content into one of five fixed status strings;
* `count_passing_tests(project_dir)` — reads `project_dir/feature_list.json`,
  parses it as JSON and returns `(passing, total)`;
* `print_session_header(session_num, is_initializer)` — prints a banner;
* `print_progress_summary(project_dir)` — prints a progress report composed
  from the two query functions.

Shallow embedding choices, kept as close to the Python source as the setting
allows:

* The filesystem is not modelled; each embedded function takes the *state of
  the one file it reads* (the path derivation from `project_dir` is elided).
  For the free-text summary the state is `TextFile` (absent / read raised /
  content); for the feature list the state is `JsonFile` (absent / IOError on
  open or read / JSONDecodeError / successfully parsed JSON value).  The JSON
  parser itself (`json.load`) is external library code and is represented by
  the `JsonFile.parsed` outcome.
* Python values decoded from JSON are modelled by `JValue` (None, bool,
  number, string, list, dict).  Numbers carry a `Rat`; the module only ever
  observes a number through its truthiness (`≠ 0`).  A decoded dict is an
  association list with the keys distinct, looked up by `lookupField`.
* Exceptions are modelled with `Except PyError`.  In the source,
  `count_passing_tests` catches only `(json.JSONDecodeError, IOError)`, so an
  `AttributeError` (from `test.get` on a non-dict) or a `TypeError` (from
  `len` on an unsized value) escapes; the embedding makes both explicit.
  `get_regression_status` uses a bare `except:`, which catches everything, so
  its read-failure state needs no error detail.
* `str.lower()` is modelled by `Char.toLower` (ASCII case folding), which
  agrees with Python on every character that can take part in an occurrence
  of the substring "failed".
* `print` calls are modelled by returning the list of printed strings (one
  list entry per `print` call, without the trailing newline `print` adds).
* The percentage `(passing / total) * 100` is computed by Python in IEEE
  binary64 floating point and rendered with `"%.1f"`.  The embedding
  (`formatPct`) performs the same computation exactly: `passing / total` is
  rounded to the nearest binary64 value (ties to even), the result is
  multiplied by `100` and rounded again, and the stored double is rendered to
  one decimal digit by rounding its exact value half to even — which is what
  CPython's `"%.1f"` does.  Overflow and negative values are unreachable here
  (`0 ≤ passing ≤ total` and the summary only formats when `total > 0`), so
  the model covers zero, subnormal and normal doubles.  A second formatter,
  `exactFixed1`, renders the *exact rational* percentage to one decimal; it
  follows the spec's words and exists only to be compared with `formatPct`.
-/

namespace Progress

/-- Does the character list `pat` occur at the start of `hay`?  Helper for the
substring test. -/
def startsWith : List Char → List Char → Bool
  | [], _ => true
  | _ :: _, [] => false
  | p :: ps, h :: hs => p == h && startsWith ps hs

/-- Does `pat` occur contiguously anywhere inside `hay`?  This is Python's
`pat in hay` on strings, on the underlying character lists. -/
def containsSub : List Char → List Char → Bool
  | [], pat => pat.isEmpty
  | h :: t, pat => startsWith pat (h :: t) || containsSub t pat

/-- Python's `pat in s` substring test. -/
def strContains (s pat : String) : Bool := containsSub s.data pat.data

/-- Python's `s.lower()`, modelled as ASCII case folding of each character. -/
def lowerStr (s : String) : String := String.mk (s.data.map Char.toLower)

/-- State of the regression summary file
`project_dir.parent/tests/regression/results/summary.txt` as observed by one
call: the file is absent, or `read_text()` raised (any exception — the source
guards the read with a bare `except:`), or the read returned `s`. -/
inductive TextFile where
  | absent
  | readError
  | content (s : String)

/-- Embedding of `get_regression_status` (progress.py lines 12–37): if the
summary file exists and is readable, classify its content by substring
priority (success phrase, then case-insensitive "failed", then fallback);
absence and read failure give the two remaining status strings. -/
def get_regression_status : TextFile → String
  | .content content =>
      if strContains content "All tests completed successfully" then
        "✅ Regression tests passing"
      else if strContains (lowerStr content) "failed" then
        "❌ Regression tests failed"
      else
        "⚠️ Regression tests completed with issues"
  | .readError => "⚠️ Could not read regression results"
  | .absent => "⏳ No regression tests run yet"

/-- Python value decoded from JSON: `None`, `bool`, a number, `str`, `list`,
or `dict` (an association list with distinct keys, in insertion order). -/
inductive JValue where
  | null
  | bool (b : Bool)
  | num (q : Rat)
  | str (s : String)
  | arr (elems : List JValue)
  | obj (fields : List (String × JValue))

/-- Python truthiness of a decoded JSON value: `None`, `False`, `0`, `""`,
`[]` and `{}` are falsy, everything else is truthy.  A rational is zero iff
its numerator is. -/
def JValue.truthy : JValue → Bool
  | .null => false
  | .bool b => b
  | .num q => q.num != 0
  | .str s => !s.isEmpty
  | .arr elems => !elems.isEmpty
  | .obj fields => !fields.isEmpty

/-- Is the value a dict?  (`dict` is the only decoded type with a `.get`
method.) -/
def JValue.isObj : JValue → Bool
  | .obj _ => true
  | _ => false

/-- Dict lookup (`d.get(key)` without default): first—and, keys being
distinct, only—binding of `key`. -/
def lookupField : List (String × JValue) → String → Option JValue
  | [], _ => none
  | (k, v) :: rest, key => if k == key then some v else lookupField rest key

/-- The exceptions `count_passing_tests` can leak: `AttributeError` from
`test.get` on a non-dict entry, `TypeError` from `len` on an unsized value.
Neither is in the source's `except (json.JSONDecodeError, IOError)` clause. -/
inductive PyError where
  | attributeError
  | typeError

/-- Python's `test.get("passes", False)` followed by truthiness: succeeds
with the truthiness of the `passes` field (absent field counts as `False`)
when `test` is a dict, raises `AttributeError` otherwise. -/
def entryPasses : JValue → Except PyError Bool
  | .obj fields =>
      .ok (match lookupField fields "passes" with
           | some v => v.truthy
           | none => false)
  | _ => .error .attributeError

/-- Python's `sum(1 for test in tests if test.get("passes", False))` over an
element list: counts the truthy `passes` fields, propagating the
`AttributeError` of the first non-dict element. -/
def passesCount : List JValue → Except PyError Nat
  | [] => .ok 0
  | t :: ts =>
      match entryPasses t with
      | .error e => .error e
      | .ok b =>
          match passesCount ts with
          | .error e => .error e
          | .ok rest => .ok ((if b then 1 else 0) + rest)

/-- Python's `len` on a decoded JSON value: defined on `list`, `str` and
`dict`, a `TypeError` on `None`, booleans and numbers. -/
def lenOf : JValue → Except PyError Nat
  | .arr elems => .ok elems.length
  | .str s => .ok s.length
  | .obj fields => .ok fields.length
  | _ => .error .typeError

/-- Python iteration over a decoded JSON value, for the values on which `len`
succeeds: a list yields its elements, a string its one-character strings, a
dict its keys. -/
def iterElems : JValue → List JValue
  | .arr elems => elems
  | .str s => s.data.map (fun c => .str (String.mk [c]))
  | .obj fields => fields.map (fun p => .str p.1)
  | _ => []

/-- State of `project_dir/feature_list.json` as observed by one call: absent,
`IOError` raised on open/read, `json.JSONDecodeError` raised by `json.load`,
or successfully parsed to the value `v`. -/
inductive JsonFile where
  | absent
  | ioError
  | badJson
  | parsed (v : JValue)

/-- Embedding of `count_passing_tests` (progress.py lines 40–64): `(0, 0)`
when the file is absent; `(0, 0)` when opening/reading raises `IOError` or
`json.load` raises `JSONDecodeError` (the two exception classes the `except`
clause lists); otherwise `total = len(tests)` and `passing` the count of
entries with a truthy `passes` field — with `len` or `.get` failures escaping
as uncaught exceptions, exactly as in the source. -/
def count_passing_tests : JsonFile → Except PyError (Nat × Nat)
  | .absent => .ok (0, 0)
  | .ioError => .ok (0, 0)
  | .badJson => .ok (0, 0)
  | .parsed v =>
      match lenOf v with
      | .error e => .error e
      | .ok total =>
          match passesCount (iterElems v) with
          | .error e => .error e
          | .ok passing => .ok (passing, total)

/-- The pure reading of `test.get("passes", False)` used to state results:
truthiness of the `passes` field of a dict, `false` on anything else. -/
def objPasses : JValue → Bool
  | .obj fields =>
      (match lookupField fields "passes" with
       | some v => v.truthy
       | none => false)
  | _ => false

/-- Python's `"=" * 70`. -/
def eqRule : String := String.mk (List.replicate 70 '=')

/-- Embedding of `print_session_header` (progress.py lines 67–74): the list
of strings passed to `print`, in order.  The second argument models the
source's `is_initializer` flag. -/
def print_session_header (session_num : Nat) (is_init : Bool) : List String :=
  let session_type := if is_init then "INITIALIZER" else "CODING AGENT"
  ["\n" ++ eqRule,
   "  SESSION " ++ toString session_num ++ ": " ++ session_type,
   eqRule,
   ""]

/-- Floor of the base-2 logarithm of `n` (`0` for `n ≤ 1`), by fuel-bounded
halving; `n` itself is enough fuel since the recursion depth is `log2 n`. -/
def log2Fuel : Nat → Nat → Nat
  | 0, _ => 0
  | fuel + 1, n => if n ≤ 1 then 0 else log2Fuel fuel (n / 2) + 1

/-- Floor of the base-2 logarithm of a natural number. -/
def natLog2 (n : Nat) : Nat := log2Fuel n n

/-- Does `2 ^ e ≤ p / t` hold?  Stated over the integers on either side of
`e = 0` so everything stays in `Nat` arithmetic. -/
def pow2Le (t p : Nat) (e : Int) : Bool :=
  if 0 ≤ e then t * 2 ^ e.toNat ≤ p else t ≤ p * 2 ^ (-e).toNat

/-- The unique `e` with `2 ^ e ≤ p / t < 2 ^ (e + 1)`, for `p, t ≥ 1`: the
bit-length difference is off by at most one, fixed by a single comparison. -/
def ratLog2 (p t : Nat) : Int :=
  let e0 : Int := (natLog2 p : Int) - (natLog2 t : Int)
  if pow2Le t p e0 then e0 else e0 - 1

/-- Round `num / den` (`den > 0`) to the nearest integer, ties to even. -/
def rheDiv (num den : Nat) : Nat :=
  let d := num / den
  let r := num % den
  if 2 * r < den then d
  else if den < 2 * r then d + 1
  else if d % 2 = 0 then d else d + 1

/-- Round the nonnegative rational `num / den` to the nearest IEEE binary64
value, ties to even, returned as an exact dyadic `(m, q)` with value
`m * 2 ^ q`.  The rounding grid has spacing `2 ^ (e - 52)` for a value with
exponent `e`, clamped at `2 ^ (-1074)` for subnormals; overflow cannot occur
for the magnitudes this module produces (at most 100). -/
def roundFloat (num den : Nat) : Nat × Int :=
  if num = 0 then (0, 0)
  else
    let e := ratLog2 num den
    let q : Int := max (e - 52) (-1074)
    let m := if 0 ≤ q then rheDiv num (den * 2 ^ q.toNat)
             else rheDiv (num * 2 ^ (-q).toNat) den
    (m, q)

/-- IEEE binary64 multiplication of the double `(m, q)` by the exactly
representable constant `100`: the exact product `m * 100 * 2 ^ q` rounded
back to binary64. -/
def mulDouble100 : Nat × Int → Nat × Int
  | (m, q) =>
      if 0 ≤ q then roundFloat (m * 100 * 2 ^ q.toNat) 1
      else roundFloat (m * 100) (2 ^ (-q).toNat)

/-- CPython's `f"{x:.1f}"` on the nonnegative double `x = m * 2 ^ q`: the
exact stored value scaled by ten and rounded to an integer half to even,
printed as `intpart.digit`. -/
def formatDouble1 : Nat × Int → String
  | (m, q) =>
      let n := if 0 ≤ q then m * 10 * 2 ^ q.toNat
               else rheDiv (m * 10) (2 ^ (-q).toNat)
      toString (n / 10) ++ "." ++ toString (n % 10)

/-- The percentage substring Python prints at `progress.py:83-84`:
`passing / total` as a correctly rounded double, times `100` as a correctly
rounded double, formatted with `"%.1f"`. -/
def formatPct (passing total : Nat) : String :=
  formatDouble1 (mulDouble100 (roundFloat passing total))

/-- One-decimal rendering of the exact rational `num / den` with ties
rounded half to even.  This definition follows the spec's words for the
percentage — "100 * passing / total formatted to one decimal place" read as
exact arithmetic — and exists to be compared with the program's
floating-point pipeline `formatPct`; the two differ at tie inputs. -/
def exactFixed1 (num den : Nat) : String :=
  let scaled := num * 10
  let q := scaled / den
  let r := scaled % den
  let n := if 2 * r < den then q
           else if den < 2 * r then q + 1
           else if q % 2 = 0 then q else q + 1
  toString (n / 10) ++ "." ++ toString (n % 10)

/-- Embedding of `print_progress_summary` (progress.py lines 77–88): the list
of strings passed to `print`, or the exception leaked by
`count_passing_tests`.  The percentage `(passing / total) * 100` is computed
through the exact binary64 model `formatPct`. -/
def print_progress_summary (jf : JsonFile) (sf : TextFile) : Except PyError (List String) :=
  match count_passing_tests jf with
  | .error e => .error e
  | .ok (passing, total) =>
      let regression_status := get_regression_status sf
      if 0 < total then
        .ok ["\nProgress: " ++ toString passing ++ "/" ++ toString total ++
               " tests passing (" ++ formatPct passing total ++ "%)",
             "Regression Status: " ++ regression_status]
      else
        .ok ["\nProgress: feature_list.json not yet created",
             "Regression Status: " ++ regression_status]

/-- Centering a label in a field of `width` characters (Python's
`str.center`): pad with spaces, the left padding being half the margin. -/
def centerIn (width : Nat) (s : String) : String :=
  let marg := width - s.length
  let left := marg / 2
  String.mk (List.replicate left ' ') ++ s ++ String.mk (List.replicate (marg - left) ' ')

/-- Leading-space count of a line, used to state how far a label is
indented. -/
def leadingSpaces (s : String) : Nat := (s.data.takeWhile (· == ' ')).length

/-- The spec's sample feature list
`[{"passes": true}, {"passes": false}, {}]` as a decoded JSON value. -/
def sampleFeatures : List JValue :=
  [.obj [("passes", .bool true)], .obj [("passes", .bool false)], .obj []]

/-- A feature list with 3 of 2000 entries passing: the percentage is exactly
0.15, a decimal tie, where the floating-point pipeline and exact rational
rounding disagree. -/
def features2000 : List JValue :=
  List.replicate 3 (.obj [("passes", .bool true)]) ++
    List.replicate 1997 (.obj [("passes", .bool false)])

/-! Helper lemmas. -/

/-- String append concatenates the underlying character lists. -/
lemma data_append (a b : String) : (a ++ b).data = a.data ++ b.data := rfl

/-- Every character list starts with itself. -/
lemma startsWith_self (l : List Char) : startsWith l l = true := by
  induction l with
  | nil => rfl
  | cons c t ih => simp [startsWith, ih]

/-- Substring occurrence is preserved by extending the haystack on the
left. -/
lemma containsSub_cons (c : Char) (t pat : List Char) (h : containsSub t pat = true) :
    containsSub (c :: t) pat = true := by
  simp [containsSub, h]

/-- Every character list occurs inside itself. -/
lemma containsSub_refl (l : List Char) : containsSub l l = true := by
  cases l with
  | nil => rfl
  | cons c t => simp [containsSub, startsWith_self]

/-- When `entryPasses` raises, the exception is `AttributeError`. -/
lemma entryPasses_error_eq (t : JValue) (e : PyError) (h : entryPasses t = .error e) :
    e = PyError.attributeError := by
  cases t with
  | obj fields => simp [entryPasses] at h
  | null => simp [entryPasses] at h; exact h.symm
  | bool b => simp [entryPasses] at h; exact h.symm
  | num q => simp [entryPasses] at h; exact h.symm
  | str s => simp [entryPasses] at h; exact h.symm
  | arr elems => simp [entryPasses] at h; exact h.symm

/-- A non-dict element anywhere in the list makes the passing count raise
`AttributeError`. -/
lemma passesCount_err : ∀ (elems : List JValue), (∃ x ∈ elems, x.isObj = false) →
    passesCount elems = Except.error PyError.attributeError
  | [], h => by simp at h
  | t :: ts, h => by
      cases ht : entryPasses t with
      | error e =>
          have he := entryPasses_error_eq t e ht
          subst he
          simp [passesCount, ht]
      | ok b =>
          have htobj : t.isObj = true := by
            cases t <;> first
              | rfl
              | simp [entryPasses] at ht
          obtain ⟨x, hx, hobj⟩ := h
          have hxts : x ∈ ts := by
            cases hx with
            | head => rw [htobj] at hobj; exact absurd hobj (by simp)
            | tail _ hmem => exact hmem
          simp [passesCount, ht, passesCount_err ts ⟨x, hxts, hobj⟩]

/-- On a list of dicts the passing count succeeds and counts the entries
whose `passes` field is truthy. -/
lemma passesCount_all_obj : ∀ (elems : List JValue), (∀ x ∈ elems, x.isObj = true) →
    passesCount elems = Except.ok (elems.countP objPasses)
  | [], _ => rfl
  | t :: ts, h => by
      have ht : t.isObj = true := h t (List.Mem.head _)
      cases t with
      | obj fields =>
          have ih := passesCount_all_obj ts (fun x hx => h x (List.Mem.tail _ hx))
          simp [passesCount, entryPasses, ih, List.countP_cons, objPasses, Nat.add_comm]
      | null => simp [JValue.isObj] at ht
      | bool b => simp [JValue.isObj] at ht
      | num q => simp [JValue.isObj] at ht
      | str s => simp [JValue.isObj] at ht
      | arr elems => simp [JValue.isObj] at ht

/-- The passing count never exceeds the number of elements. -/
lemma passesCount_le : ∀ (elems : List JValue) (n : Nat),
    passesCount elems = Except.ok n → n ≤ elems.length
  | [], n, h => by
      simp [passesCount] at h
      omega
  | t :: ts, n, h => by
      cases ht : entryPasses t with
      | error e => simp [passesCount, ht] at h
      | ok b =>
          cases hts : passesCount ts with
          | error e => simp [passesCount, ht, hts] at h
          | ok rest =>
              have hle := passesCount_le ts rest hts
              simp [passesCount, ht, hts] at h
              cases b <;> simp at h <;> simp [List.length_cons] <;> omega

/-- `len` agrees with the length of the iteration order. -/
lemma lenOf_iter (v : JValue) (t : Nat) (h : lenOf v = .ok t) :
    t = (iterElems v).length := by
  cases v with
  | null => simp [lenOf] at h
  | bool b => simp [lenOf] at h
  | num q => simp [lenOf] at h
  | str s =>
      simp only [lenOf, Except.ok.injEq] at h
      subst h
      simp only [iterElems, List.length_map]
      rfl
  | arr elems =>
      simp only [lenOf, Except.ok.injEq] at h
      subst h
      rfl
  | obj fields =>
      simp only [lenOf, Except.ok.injEq] at h
      subst h
      simp only [iterElems, List.length_map]

/-- Counting over a constant list gives the length or zero. -/
lemma countP_replicate_eq {α : Type} (p : α → Bool) (n : Nat) (x : α) :
    (List.replicate n x).countP p = if p x then n else 0 := by
  induction n with
  | zero => simp
  | succ k ih =>
      rw [List.replicate_succ, List.countP_cons, ih]
      cases h : p x <;> simp [h]

/-- The 3-of-2000 feature list counts to `(3, 2000)`. -/
lemma features2000_count :
    count_passing_tests (.parsed (.arr features2000)) = .ok (3, 2000) := by
  have hobj : ∀ x ∈ features2000, x.isObj = true := by
    intro x hx
    simp only [features2000, List.mem_append, List.mem_replicate] at hx
    rcases hx with ⟨-, rfl⟩ | ⟨-, rfl⟩ <;> rfl
  have hT : objPasses (JValue.obj [("passes", JValue.bool true)]) = true := rfl
  have hF : objPasses (JValue.obj [("passes", JValue.bool false)]) = false := rfl
  have h1 : passesCount features2000 = .ok 3 := by
    rw [passesCount_all_obj features2000 hobj, features2000, List.countP_append,
        countP_replicate_eq, countP_replicate_eq, hT, hF]
    norm_num
  have h2 : features2000.length = 2000 := by
    rw [features2000, List.length_append, List.length_replicate, List.length_replicate]
  simp [count_passing_tests, lenOf, iterElems, h1, h2]

/-! Claim theorems. -/

/-- C1: for every readable summary content, `get_regression_status`
classifies in priority order: the exact success phrase gives the Passing
marker (even if "failed" also occurs); otherwise case-insensitive "failed"
gives the Failed marker; otherwise the CompletedWithIssues marker. -/
theorem get_regression_status_priority (s : String) :
    (strContains s "All tests completed successfully" = true →
      get_regression_status (.content s) = "✅ Regression tests passing") ∧
    (strContains s "All tests completed successfully" = false →
      strContains (lowerStr s) "failed" = true →
      get_regression_status (.content s) = "❌ Regression tests failed") ∧
    (strContains s "All tests completed successfully" = false →
      strContains (lowerStr s) "failed" = false →
      get_regression_status (.content s) = "⚠️ Regression tests completed with issues") := by
  refine ⟨fun h1 => ?_, fun h1 h2 => ?_, fun h1 h2 => ?_⟩ <;>
    simp [get_regression_status, h1]
  · simp [h2]
  · simp [h2]

/-- C1 witness: a summary containing both the success phrase and "failed" is
classified as passing. -/
theorem get_regression_status_priority_witness :
    get_regression_status (.content "All tests completed successfully. 2 tests failed") =
      "✅ Regression tests passing" :=
  (get_regression_status_priority "All tests completed successfully. 2 tests failed").1 (by rfl)

/-- C2 counterexample: on well-formed JSON whose single entry is the number
1 (not a mapping), `count_passing_tests` raises `AttributeError` instead of
returning `(0, 0)`: the `except` clause lists only `JSONDecodeError` and
`IOError`. -/
theorem count_passing_tests_nonmapping_raises :
    count_passing_tests (.parsed (.arr [.num ((1 : Nat) : Rat)])) =
        .error PyError.attributeError ∧
    count_passing_tests (.parsed (.arr [.num ((1 : Nat) : Rat)])) ≠ .ok (0, 0) := by
  refine ⟨rfl, fun h => ?_⟩
  rw [show count_passing_tests (.parsed (.arr [.num ((1 : Nat) : Rat)])) =
        Except.error PyError.attributeError from rfl] at h
  exact Except.noConfusion h

/-- C2 amended: `count_passing_tests` returns `(0, 0)` when reading raises
`IOError` or parsing raises `JSONDecodeError`; but JSON that parses to an
array with a non-mapping entry makes it raise `AttributeError` to the
caller. -/
theorem count_passing_tests_error_policy :
    count_passing_tests .ioError = .ok (0, 0) ∧
    count_passing_tests .badJson = .ok (0, 0) ∧
    ∀ elems : List JValue, (∃ x ∈ elems, x.isObj = false) →
      count_passing_tests (.parsed (.arr elems)) = .error PyError.attributeError := by
  refine ⟨rfl, rfl, fun elems h => ?_⟩
  simp [count_passing_tests, lenOf, iterElems, passesCount_err elems h]

/-- C2 amended witness: a one-element array holding `null` raises
`AttributeError`. -/
theorem count_passing_tests_error_policy_witness :
    count_passing_tests (.parsed (.arr [JValue.null])) = .error PyError.attributeError :=
  count_passing_tests_error_policy.2.2 [JValue.null] ⟨JValue.null, List.Mem.head _, rfl⟩

/-- C3: a missing summary file yields the NotYetRun marker and a failing
read yields the ReadError marker, in both cases without any exception
escaping (the embedding is a total function). -/
theorem get_regression_status_missing_and_unreadable :
    get_regression_status .absent = "⏳ No regression tests run yet" ∧
    get_regression_status .readError = "⚠️ Could not read regression results" :=
  ⟨rfl, rfl⟩

/-- C4: on a JSON array all of whose entries are mappings,
`count_passing_tests` returns the count of entries with a truthy `passes`
field paired with the array length; a missing `passes` key or a falsy value
counts as not passing (this is `objPasses`). -/
theorem count_passing_tests_counts (elems : List JValue)
    (h : ∀ x ∈ elems, x.isObj = true) :
    count_passing_tests (.parsed (.arr elems)) =
      .ok (elems.countP objPasses, elems.length) := by
  simp [count_passing_tests, lenOf, iterElems, passesCount_all_obj elems h]

/-- C4 witness: `[⟨passes: true⟩, ⟨passes: false⟩, ⟨⟩]` gives `(1, 3)`. -/
theorem count_passing_tests_counts_witness :
    count_passing_tests (.parsed (.arr sampleFeatures)) = .ok (1, 3) := by
  have h := count_passing_tests_counts sampleFeatures (by decide)
  rw [h]
  rfl

/-- C5 counterexample: at 3 passing of 2000 the program prints "(0.1%)" —
the double nearest 3/2000, multiplied by 100, stores
0.1499999999999999944…, below the tie — while the claimed percentage,
100 * 3 / 2000 = 0.15 formatted to one decimal place, is "0.2" (so under
half-to-even rounding, and likewise under half-away-from-zero). -/
theorem print_progress_summary_percent_counterexample :
    print_progress_summary (.parsed (.arr features2000)) .absent =
      .ok ["\nProgress: 3/2000 tests passing (0.1%)",
           "Regression Status: ⏳ No regression tests run yet"] ∧
    exactFixed1 (3 * 100) 2000 = "0.2" := by
  refine ⟨?_, rfl⟩
  have h : print_progress_summary (.parsed (.arr features2000)) .absent =
      .ok ["\nProgress: " ++ toString 3 ++ "/" ++ toString 2000 ++
             " tests passing (" ++ formatPct 3 2000 ++ "%)",
           "Regression Status: " ++ get_regression_status .absent] := by
    simp [print_progress_summary, features2000_count]
  rw [h]
  rfl

/-- C5 amended: whenever `count_passing_tests` returns a positive total,
`print_progress_summary` prints the `passing/total tests passing (p%)` line
— the percentage being `(passing / total) * 100` computed in IEEE binary64
and the stored double rendered to one decimal place — followed by the
regression status line; at decimal ties the printed digit can differ from
the exactly computed percentage. -/
theorem print_progress_summary_percent (jf : JsonFile) (sf : TextFile)
    (passing total : Nat) (hc : count_passing_tests jf = .ok (passing, total))
    (ht : 0 < total) :
    print_progress_summary jf sf =
      .ok ["\nProgress: " ++ toString passing ++ "/" ++ toString total ++
             " tests passing (" ++ formatPct passing total ++ "%)",
           "Regression Status: " ++ get_regression_status sf] := by
  simp [print_progress_summary, hc, ht]

/-- C5 witness: the feature list `[⟨passes: true⟩, ⟨passes: false⟩, ⟨⟩]`
reports "1/3 tests passing (33.3%)". -/
theorem print_progress_summary_percent_witness :
    print_progress_summary
        (.parsed (.arr [.obj [("passes", .bool true)], .obj [("passes", .bool false)],
                        .obj []]))
        .absent =
      .ok ["\nProgress: 1/3 tests passing (33.3%)",
           "Regression Status: ⏳ No regression tests run yet"] := by
  have h := print_progress_summary_percent
      (.parsed (.arr [.obj [("passes", .bool true)], .obj [("passes", .bool false)],
                      .obj []]))
      .absent 1 3 rfl (by decide)
  rw [h]
  rfl

/-- C6: whenever `count_passing_tests` returns a zero total,
`print_progress_summary` reports that `feature_list.json` has not yet been
created, with no percentage; and every successful report ends with the
regression status line. -/
theorem print_progress_summary_empty (jf : JsonFile) (sf : TextFile) :
    (∀ passing : Nat, count_passing_tests jf = .ok (passing, 0) →
      print_progress_summary jf sf =
        .ok ["\nProgress: feature_list.json not yet created",
             "Regression Status: " ++ get_regression_status sf]) ∧
    (∀ lines : List String, print_progress_summary jf sf = .ok lines →
      lines.getLast? = some ("Regression Status: " ++ get_regression_status sf)) := by
  constructor
  · intro passing hc
    simp [print_progress_summary, hc]
  · intro lines hl
    cases hc : count_passing_tests jf with
    | error e => simp [print_progress_summary, hc] at hl
    | ok pt =>
        obtain ⟨p, t⟩ := pt
        by_cases ht : 0 < t
        · simp [print_progress_summary, hc, ht] at hl
          simp [← hl]
        · simp [print_progress_summary, hc, ht] at hl
          simp [← hl]

/-- C6 witness: with no feature list and no summary file, the report is the
"not yet created" line followed by the NotYetRun regression line. -/
theorem print_progress_summary_empty_witness :
    print_progress_summary .absent .absent =
      .ok ["\nProgress: feature_list.json not yet created",
           "Regression Status: ⏳ No regression tests run yet"] := by
  have h := (print_progress_summary_empty .absent .absent).1 0 rfl
  rw [h]
  rfl

/-- C7 counterexample: for session 3 of an initializing run, the label line
is `"  SESSION 3: INITIALIZER"` — indented two spaces, 24 characters long —
not the label centered in the 70-character banner width (which would carry
24 leading spaces). -/
theorem print_session_header_not_centered :
    (print_session_header 3 true).get? 1 = some "  SESSION 3: INITIALIZER" ∧
    leadingSpaces "  SESSION 3: INITIALIZER" = 2 ∧
    centerIn 70 "SESSION 3: INITIALIZER" ≠ "  SESSION 3: INITIALIZER" ∧
    leadingSpaces (centerIn 70 "SESSION 3: INITIALIZER") = 24 ∧
    ("  SESSION 3: INITIALIZER").length ≠ 70 := by
  refine ⟨rfl, rfl, ?_, rfl, by decide⟩
  intro h
  exact absurd (congrArg leadingSpaces h) (by decide)

/-- C7 amended: `print_session_header` emits an opening rule of exactly 70
`'='` characters, then a label line indented by two spaces (not centered)
containing "SESSION {session_num}: INITIALIZER" or "SESSION {session_num}:
CODING AGENT", then a closing rule of the same width, then a blank line. -/
theorem print_session_header_banner (session_num : Nat) (is_init : Bool)
    (_h : 0 < session_num) :
    print_session_header session_num is_init =
      ["\n" ++ eqRule,
       "  SESSION " ++ toString session_num ++ ": " ++
         (if is_init then "INITIALIZER" else "CODING AGENT"),
       eqRule, ""] ∧
    eqRule.length = 70 ∧
    (∀ c ∈ eqRule.data, c = '=') ∧
    containsSub
      ("  SESSION " ++ toString session_num ++ ": " ++
        (if is_init then "INITIALIZER" else "CODING AGENT")).data
      ("SESSION " ++ toString session_num ++ ": " ++
        (if is_init then "INITIALIZER" else "CODING AGENT")).data = true := by
  refine ⟨rfl, by decide, by decide, ?_⟩
  have hdata : ("  SESSION " ++ toString session_num ++ ": " ++
        (if is_init then "INITIALIZER" else "CODING AGENT")).data =
      ' ' :: ' ' :: ("SESSION " ++ toString session_num ++ ": " ++
        (if is_init then "INITIALIZER" else "CODING AGENT")).data := by
    simp only [data_append, List.append_assoc]
    rfl
  rw [hdata]
  exact containsSub_cons _ _ _ (containsSub_cons _ _ _ (containsSub_refl _))

/-- C7 amended witness: the session-3 initializing banner, concretely. -/
theorem print_session_header_banner_witness :
    print_session_header 3 true =
      ["\n" ++ eqRule, "  SESSION 3: INITIALIZER", eqRule, ""] :=
  ((print_session_header_banner 3 true (by decide)).1).trans (by rfl)

/-- C8: `get_regression_status` is total over every observable state of the
summary file and always returns one of exactly five fixed strings; in
particular any read failure (the source guards the read with a bare
`except:`) yields the ReadError marker. -/
theorem get_regression_status_total (tf : TextFile) :
    get_regression_status tf = "✅ Regression tests passing" ∨
    get_regression_status tf = "❌ Regression tests failed" ∨
    get_regression_status tf = "⚠️ Regression tests completed with issues" ∨
    get_regression_status tf = "⏳ No regression tests run yet" ∨
    get_regression_status tf = "⚠️ Could not read regression results" := by
  cases tf with
  | absent => simp [get_regression_status]
  | readError => simp [get_regression_status]
  | content s =>
      simp only [get_regression_status]
      split_ifs <;> simp

/-- C9: an existing, well-formed but empty feature list gives `(0, 0)` and
makes `print_progress_summary` print exactly what it prints for a missing
file: the "feature_list.json not yet created" line plus the regression
status line. -/
theorem count_passing_tests_empty_list (sf : TextFile) :
    count_passing_tests (.parsed (.arr [])) = .ok (0, 0) ∧
    print_progress_summary (.parsed (.arr [])) sf = print_progress_summary .absent sf ∧
    print_progress_summary (.parsed (.arr [])) sf =
      .ok ["\nProgress: feature_list.json not yet created",
           "Regression Status: " ++ get_regression_status sf] :=
  ⟨rfl, rfl, rfl⟩

/-- C10: whenever `count_passing_tests` returns a pair without raising, the
invariant `0 ≤ passing ≤ total` holds. -/
theorem count_passing_tests_invariant (jf : JsonFile) (passing total : Nat)
    (h : count_passing_tests jf = .ok (passing, total)) :
    0 ≤ passing ∧ passing ≤ total := by
  refine ⟨Nat.zero_le _, ?_⟩
  cases jf with
  | absent =>
      injection h with h1
      injection h1 with h2 h3
      omega
  | ioError =>
      injection h with h1
      injection h1 with h2 h3
      omega
  | badJson =>
      injection h with h1
      injection h1 with h2 h3
      omega
  | parsed v =>
      cases hl : lenOf v with
      | error e => simp [count_passing_tests, hl] at h
      | ok tot =>
          cases hp : passesCount (iterElems v) with
          | error e => simp [count_passing_tests, hl, hp] at h
          | ok pass =>
              simp [count_passing_tests, hl, hp] at h
              have h1 := passesCount_le (iterElems v) pass hp
              have h2 := lenOf_iter v tot hl
              omega

/-- C10 witness: a singleton passing feature list gives `(1, 1)`, and the
invariant holds there. -/
theorem count_passing_tests_invariant_witness : 0 ≤ 1 ∧ 1 ≤ 1 :=
  count_passing_tests_invariant (.parsed (.arr [.obj [("passes", .bool true)]])) 1 1 rfl

end Progress
